import Mathlib

/-!
Shallow embedding of the two WebRTC signaling-relay variants of this repository:

* namespace `P0` embeds `src/unnamed/part_000` (registry `streams`, messages
  streamer-join / viewer-join / streamer-offer / streamer-candidate /
  viewer-answer / viewer-candidate);
* namespace `SJ` embeds `src/server.js` (registry `streamers`, messages
  identify / offer / answer / candidate / leave, plus the guarded `send` helper).

Sockets are identified by an opaque string id; the per-socket mutable fields the
servers store on the socket object live in a heap `conns : List (String × Conn)`
keyed by that id, and a registry entry refers to a socket by its id (modelling the
JS object reference).  JS `Map`s are association lists with `Map.set`/`get`/`delete`
semantics.  Observable behaviour is a list of events: payloads sent to a socket,
sockets closed by the server, and console lines (log text abbreviated).
`uuidv4()` results, `Date.now()` and `getBaseUrl()` are parameters of the handlers.
-/

/-- JS Map lookup (Map.get) on an association list. -/
def mget {α : Type} : List (String × α) → String → Option α
  | [], _ => none
  | (k, v) :: rest, key => if k = key then some v else mget rest key

/-- JS Map insertion (Map.set): replaces in place when the key exists, appends otherwise. -/
def mset {α : Type} : List (String × α) → String → α → List (String × α)
  | [], k, v => [(k, v)]
  | (k0, v0) :: rest, k, v => if k0 = k then (k, v) :: rest else (k0, v0) :: mset rest k v

/-- JS Map deletion (Map.delete) of the entry holding the key. -/
def mdel {α : Type} : List (String × α) → String → List (String × α)
  | [], _ => []
  | (k0, v0) :: rest, k => if k0 = k then rest else (k0, v0) :: mdel rest k

/-- Lookup with a possibly-undefined key: Map.get(undefined) finds nothing, the maps
being keyed by generated uuids. -/
def mgetO {α : Type} (m : List (String × α)) : Option String → Option α
  | none => none
  | some k => mget m k

/-- Deletion with a possibly-undefined key: Map.delete(undefined) is a no-op. -/
def mdelO {α : Type} (m : List (String × α)) : Option String → List (String × α)
  | none => m
  | some k => mdel m k

/-- JS truthiness of a string-valued field: undefined and the empty string are falsy. -/
def truthyS : Option String → Bool
  | none => false
  | some s => s != ""

/-- JS expression a || b with a string default, as in msgStreamId || uuidv4(). -/
def jsOrS (a : Option String) (b : String) : String :=
  if truthyS a then a.getD "" else b

/-- JS expression a || b between possibly-absent string fields, without a final null. -/
def jsOr (a b : Option String) : Option String :=
  if truthyS a then a else b

/-- JS expression a || b || c || null: the first truthy operand, or null. -/
def jsOr3N (a b c : Option String) : Option String :=
  if truthyS a then a else if truthyS b then b else if truthyS c then c else none

/-- The string behind a field that the control flow has checked to be present. -/
def getS (a : Option String) : String := a.getD ""

/-- The WebSocket.OPEN ready-state constant. -/
def WSOPEN : Nat := 1

/-- Number of occurrences of an element in a list. -/
def cnt {α : Type} [DecidableEq α] (a : α) : List α → Nat
  | [] => 0
  | b :: l => (if b = a then 1 else 0) + cnt a l

/-- Concatenation of the images of a list under a list-valued function: the event
trace of a for-of loop whose body emits the given events per entry. -/
def flatL {α β : Type} (f : α → List β) : List α → List β
  | [] => []
  | x :: l => f x ++ flatL f l

namespace P0

/-- Per-socket fields of part_000 (ws.role, ws.streamId, plus the transport ready
state).  The uuid ws.id doubles as the reference identity of the socket, hence it is
the key under which the connection sits in the heap and is not repeated as a field. -/
structure Conn where
  role : Option String
  streamId : Option String
  readyState : Nat
deriving DecidableEq, Repr

/-- Registry entry of part_000:
streams.set(streamId, ( streamer: ws, viewers: new Map(), createdAt, streamerId: ws.id )). -/
structure Stream where
  streamer : String
  viewers : List (String × String)
  createdAt : Nat
  streamerId : String
deriving DecidableEq, Repr

/-- Whole-server state of part_000: the socket heap and the streams registry. -/
structure State where
  conns : List (String × Conn)
  streams : List (String × Stream)
deriving DecidableEq, Repr

/-- Parsed inbound JSON message of part_000: the type discriminator plus every data
field some handler reads. -/
structure Msg where
  ty : String
  streamId : Option String
  offer : Option String
  candidate : Option String
  answer : Option String
deriving DecidableEq, Repr

/-- Outbound JSON messages of part_000, one constructor per object literal passed to
a socket send. -/
inductive OutMsg where
  | errorMsg (message : String)
  | streamInfo (streamId : String) (viewerUrl : String) (message : String)
  | viewerJoined (viewerId : String) (viewerCount : Nat)
  | streamJoined (streamId : String) (streamerId : String)
  | streamerOffer (offer : Option String)
  | streamerCandidate (candidate : Option String)
  | viewerAnswer (viewerId : String) (answer : Option String)
  | viewerCandidate (viewerId : String) (candidate : Option String)
  | streamEnded (message : String)
  | viewerLeft (viewerId : String) (viewerCount : Nat)
deriving DecidableEq, Repr

/-- Observable actions of part_000: a payload sent to a socket, a socket closed by
the server, a console line. -/
inductive Ev where
  | sent (tgt : String) (m : OutMsg)
  | closed (c : String)
  | log (s : String)
deriving DecidableEq, Repr

/-- Whether the socket stored under cid is currently open (readyState === OPEN);
a dangling id has no transport and counts as not open. -/
def wsOpen (st : State) (cid : String) : Bool :=
  match mget st.conns cid with
  | some c => c.readyState == WSOPEN
  | none => false

/-- Loop of the streamer-offer case (lines 168-176): each currently open viewer is
sent the offer once, with a per-route console line. -/
def offerLoop (st : State) (offer : Option String) : List (String × String) → List Ev :=
  flatL fun p =>
    if wsOpen st p.2 then
      [Ev.sent p.2 (.streamerOffer offer), Ev.log "Routed offer to viewer"]
    else []

/-- Loop of the streamer-candidate case (lines 185-192). -/
def candLoop (st : State) (candidate : Option String) : List (String × String) → List Ev :=
  flatL fun p =>
    if wsOpen st p.2 then [Ev.sent p.2 (.streamerCandidate candidate)] else []

/-- Loop of the streamer-close teardown (lines 243-251): only a viewer whose socket
is open is notified, and only such a viewer has close() called on it (both actions
sit inside the readyState guard). -/
def closeViewers (st : State) : List (String × String) → List Ev :=
  flatL fun p =>
    if wsOpen st p.2 then
      [Ev.sent p.2 (.streamEnded "Streamer has disconnected"), Ev.closed p.2]
    else []

/-- The message handler of part_000 (ws.on message, lines 65-234).  cid and c are the
receiving socket and its current fields, m the parse result (none when JSON.parse
threw), fresh the uuid drawn where the handler calls uuidv4(), now the clock and
baseUrl the result of getBaseUrl(). -/
def onMessage (st : State) (cid : String) (c : Conn) (m : Option Msg)
    (fresh : String) (now : Nat) (baseUrl : String) : State × List Ev :=
  match m with
  | none => (st, [Ev.log "Invalid message"])
  | some msg =>
    if msg.ty == "streamer-join" then
      let c1 : Conn := { c with role := some "streamer", streamId := some fresh }
      let st1 : State :=
        { st with conns := mset st.conns cid c1,
                  streams := mset st.streams fresh ⟨cid, [], now, cid⟩ }
      (st1, [Ev.log "New stream created", Ev.log "Active streams",
             Ev.sent cid (.streamInfo fresh (baseUrl ++ "/viewer.html?stream=" ++ fresh)
               "Share this private link with viewers")])
    else if msg.ty == "viewer-join" then
      match mgetO st.streams msg.streamId with
      | none =>
        (st, [Ev.sent cid (.errorMsg "Stream not found or has ended"),
              Ev.log "Viewer tried to join non-existent stream", Ev.closed cid])
      | some e =>
        if wsOpen st e.streamer then
          let sid := getS msg.streamId
          let c1 : Conn := { c with role := some "viewer", streamId := some sid }
          let e1 : Stream := { e with viewers := mset e.viewers cid cid }
          let st1 : State :=
            { st with conns := mset st.conns cid c1, streams := mset st.streams sid e1 }
          (st1, [Ev.log "Viewer joined stream", Ev.log "Viewers in stream",
                 Ev.sent e.streamer (.viewerJoined cid e1.viewers.length),
                 Ev.sent cid (.streamJoined sid e.streamerId)])
        else
          ({ st with streams := mdelO st.streams msg.streamId },
           [Ev.sent cid (.errorMsg "Streamer has disconnected"),
            Ev.log "Viewer tried to join stream with disconnected streamer",
            Ev.closed cid])
    else if msg.ty == "streamer-offer" then
      match mgetO st.streams c.streamId with
      | none => (st, [Ev.log "No active stream found for offer"])
      | some e => (st, Ev.log "Streamer sending offer" :: offerLoop st msg.offer e.viewers)
    else if msg.ty == "streamer-candidate" then
      match mgetO st.streams c.streamId with
      | none => (st, [])
      | some e => (st, candLoop st msg.candidate e.viewers)
    else if msg.ty == "viewer-answer" then
      match mgetO st.streams c.streamId with
      | none => (st, [])
      | some e =>
        if wsOpen st e.streamer then
          (st, [Ev.sent e.streamer (.viewerAnswer cid msg.answer),
                Ev.log "Routed answer to streamer"])
        else (st, [])
    else if msg.ty == "viewer-candidate" then
      match mgetO st.streams c.streamId with
      | none => (st, [])
      | some e =>
        if wsOpen st e.streamer then
          (st, [Ev.sent e.streamer (.viewerCandidate cid msg.candidate)])
        else (st, [])
    else (st, [Ev.log "Unknown message type"])

/-- The close handler of part_000 (ws.on close, lines 236-273).  The streamer check
stream.streamer is always a stored socket reference and hence truthy, so only the
readyState comparison is modelled of the viewer-left guard. -/
def onClose (st : State) (cid : String) (c : Conn) : State × List Ev :=
  if c.role == some "streamer" && truthyS c.streamId then
    match mget st.streams (getS c.streamId) with
    | none => (st, [Ev.log "WebSocket closed"])
    | some e =>
      ({ st with streams := mdel st.streams (getS c.streamId) },
       Ev.log "WebSocket closed" :: closeViewers st e.viewers
         ++ [Ev.log "Streamer disconnected and removed", Ev.log "Remaining active streams"])
  else if c.role == some "viewer" && truthyS c.streamId then
    match mget st.streams (getS c.streamId) with
    | none => (st, [Ev.log "WebSocket closed"])
    | some e =>
      let e1 : Stream := { e with viewers := mdel e.viewers cid }
      ({ st with streams := mset st.streams (getS c.streamId) e1 },
       [Ev.log "WebSocket closed", Ev.log "Viewer disconnected",
        Ev.log "Remaining viewers in stream"]
         ++ (if wsOpen st e.streamer then
               [Ev.sent e.streamer (.viewerLeft cid e1.viewers.length)]
             else []))
  else (st, [Ev.log "WebSocket closed"])

/-- One pass over the registry entries of the periodic cleanup of part_000. -/
def sweepLoop (st : State) : List (String × Stream) → List (String × Stream) × Nat
  | [] => ([], 0)
  | (sid, e) :: rest =>
    let r := sweepLoop st rest
    if wsOpen st e.streamer then ((sid, e) :: r.1, r.2) else (r.1, r.2 + 1)

/-- The periodic cleanup of part_000 (lines 281-292): every entry whose streamer
socket is not open is deleted and counted, with one console line when the count is
positive.  The loop body sends nothing and closes nothing. -/
def sweep (st : State) : State × List Ev :=
  let r := sweepLoop st st.streams
  ({ st with streams := r.1 },
   if r.2 > 0 then [Ev.log "Cleaned up dead streams"] else [])

end P0

namespace SJ

/-- Fields of ws._meta in server.js plus the transport ready state; sendFails models
the underlying library ws.send raising when invoked, the condition the try/catch in
the send helper guards against. -/
structure Conn where
  role : Option String
  streamId : Option String
  viewerId : Option String
  readyState : Nat
  sendFails : Bool
deriving DecidableEq, Repr

/-- Registry entry of server.js:
streamers.set(id, ( ws, viewers: new Map(), createdAt )). -/
structure Entry where
  ws : String
  viewers : List (String × String)
  createdAt : Nat
deriving DecidableEq, Repr

/-- Whole-server state of server.js: the socket heap and the streamers registry. -/
structure State where
  conns : List (String × Conn)
  streamers : List (String × Entry)
deriving DecidableEq, Repr

/-- Parsed inbound message of server.js: the type plus every field some handler
destructures.  toId stands for msg.to and fromF for msg.from (Lean keywords);
rest stands for the remaining payload fields (sdp, candidate data) that routing
forwards opaquely via Object.assign. -/
structure Msg where
  ty : String
  role : Option String
  streamId : Option String
  viewerId : Option String
  toId : Option String
  toViewer : Bool
  toStreamer : Bool
  streamIdFrom : Option String
  fromF : Option String
  fromRole : Option String
  rest : String
deriving DecidableEq, Repr

/-- Outbound messages of server.js, one constructor per object literal handed to the
send helper; forward carries the whole inbound record after Object.assign. -/
inductive OutMsg where
  | errorMsg (message : String)
  | noStream (message : String)
  | identifiedStreamer (streamId : String)
  | identifiedViewer (streamId : String) (viewerId : String)
  | viewerJoined (viewerId : String)
  | viewerLeft (viewerId : Option String)
  | streamEnded (streamId : Option String)
  | forward (m : Msg)
deriving DecidableEq, Repr

/-- Observable actions of server.js. -/
inductive Ev where
  | sent (tgt : String) (m : OutMsg)
  | closed (c : String)
  | log (s : String)
deriving DecidableEq, Repr

/-- Serialisation of an optional JSON field: JSON.stringify drops a key whose value
is undefined. -/
def optF (k : String) : Option String → List (String × String)
  | none => []
  | some v => [(k, v)]

/-- The JSON fields of each outbound message exactly as the object literal in
server.js spells them (numbers and booleans rendered as strings). -/
def fields : OutMsg → List (String × String)
  | .errorMsg m => [("type", "error"), ("message", m)]
  | .noStream m => [("type", "no-stream"), ("message", m)]
  | .identifiedStreamer sid =>
      [("type", "identified"), ("role", "streamer"), ("streamId", sid)]
  | .identifiedViewer sid vid =>
      [("type", "identified"), ("role", "viewer"), ("streamId", sid), ("viewerId", vid)]
  | .viewerJoined vid => [("type", "viewer-joined"), ("viewerId", vid)]
  | .viewerLeft vid => ("type", "viewer-left") :: optF "viewerId" vid
  | .streamEnded sid => ("type", "stream-ended") :: optF "streamId" sid
  | .forward m =>
      ("type", m.ty) :: (optF "role" m.role ++ optF "streamId" m.streamId
        ++ optF "viewerId" m.viewerId ++ optF "to" m.toId
        ++ [("toViewer", toString m.toViewer), ("toStreamer", toString m.toStreamer)]
        ++ optF "streamIdFrom" m.streamIdFrom ++ optF "from" m.fromF
        ++ optF "fromRole" m.fromRole ++ [("rest", m.rest)])

/-- Whether the socket stored under cid is currently open; a dangling id counts as
not open.  The checks of the form entry.ws && ... are constant-true on a stored
socket reference and are subsumed by this lookup. -/
def wsOpen (st : State) (cid : String) : Bool :=
  match mget st.conns cid with
  | some c => c.readyState == WSOPEN
  | none => false

/-- The raw library call ws.send, which raises when the transport refuses the write. -/
def rawSend (c : Conn) (m : OutMsg) : Except String Unit :=
  if c.sendFails then Except.error "send raised" else Except.ok ()

/-- The send helper of server.js (lines 19-26) with its exception flow explicit: a
null or non-open target is skipped, and an exception from the raw send is caught
and turned into a console warning. -/
def sendE (st : State) (ws : Option String) (m : OutMsg) : Except String (List Ev) :=
  match ws with
  | none => Except.ok []
  | some cid =>
    match mget st.conns cid with
    | none => Except.ok []
    | some c =>
      if c.readyState != WSOPEN then Except.ok []
      else
        match rawSend c m with
        | Except.ok _ => Except.ok [Ev.sent cid m]
        | Except.error _ => Except.ok [Ev.log "Failed to send ws message"]

/-- The send helper as the total function the rest of server.js calls. -/
def send (st : State) (ws : Option String) (m : OutMsg) : List Ev :=
  match sendE st ws m with
  | Except.ok evs => evs
  | Except.error _ => []

/-- The identify case of server.js (lines 44-84); fresh is the uuid drawn where the
branch calls uuidv4().  Note ws._meta.role is assigned before any branching, and in
the viewer branch ws._meta.streamId and ws._meta.viewerId are assigned before the
registry lookup. -/
def identifyH (st : State) (cid : String) (c : Conn) (msg : Msg) (fresh : String)
    (now : Nat) : State × List Ev :=
  let c1 : Conn := { c with role := msg.role }
  let st1 : State := { st with conns := mset st.conns cid c1 }
  if msg.role == some "streamer" then
    let id := jsOrS msg.streamId fresh
    let c2 : Conn := { c1 with streamId := some id }
    let st2 : State :=
      { st1 with conns := mset st1.conns cid c2,
                 streamers := mset st1.streamers id ⟨cid, [], now⟩ }
    (st2, Ev.log "Streamer connected" :: send st2 (some cid) (.identifiedStreamer id))
  else if msg.role == some "viewer" then
    if truthyS msg.streamId = false then
      (st1, send st1 (some cid) (.errorMsg "viewer must provide streamId"))
    else
      let sid := getS msg.streamId
      let vid := jsOrS msg.viewerId fresh
      let c2 : Conn := { c1 with streamId := some sid, viewerId := some vid }
      let st2 : State := { st1 with conns := mset st1.conns cid c2 }
      match mget st2.streamers sid with
      | none =>
        (st2, send st2 (some cid) (.noStream "Streamer not available")
          ++ [Ev.log "Viewer attempted join but no streamer"])
      | some e =>
        if wsOpen st2 e.ws = false then
          (st2, send st2 (some cid) (.noStream "Streamer not available")
            ++ [Ev.log "Viewer attempted join but no streamer"])
        else
          let e1 : Entry := { e with viewers := mset e.viewers vid cid }
          let st3 : State := { st2 with streamers := mset st2.streamers sid e1 }
          (st3, Ev.log "Viewer joined stream"
            :: (send st3 (some e.ws) (.viewerJoined vid)
              ++ send st3 (some cid) (.identifiedViewer sid vid)))
  else (st1, [])

/-- The offer/answer/candidate/leave routing block of server.js (lines 87-182); it
reads state only and emits sends and console warnings. -/
def route (st : State) (c : Conn) (msg : Msg) : List Ev :=
  let originRole : String :=
    if truthyS c.role then getS c.role else jsOrS msg.fromRole "unknown"
  let canonical : Option String := jsOr3N c.streamId msg.streamId msg.streamIdFrom
  if truthyS msg.toId && msg.toViewer then
    let sidR := jsOr canonical msg.streamId
    if truthyS sidR = false then [Ev.log "Routing to viewer requested but no streamId"]
    else
      match mget st.streamers (getS sidR) with
      | none => [Ev.log "No streamer found for routing to viewer"]
      | some e =>
        match mget e.viewers (getS msg.toId) with
        | some vws =>
          if wsOpen st vws then
            send st (some vws) (.forward { msg with streamId := some (getS sidR) })
              ++ [Ev.log "Routed to viewer"]
          else [Ev.log "Viewer ws not found or not open"]
        | none => [Ev.log "Viewer ws not found or not open"]
  else if msg.toStreamer then
    let sidR := jsOr (jsOr canonical msg.toId) msg.streamId
    if truthyS sidR = false then [Ev.log "Routing to streamer requested but no streamId"]
    else
      match mget st.streamers (getS sidR) with
      | none => [Ev.log "Streamer not found or not open"]
      | some e =>
        if wsOpen st e.ws then
          let fromv := jsOr3N msg.fromF c.viewerId msg.viewerId
          send st (some e.ws)
              (.forward { msg with streamId := some (getS sidR), fromF := fromv })
            ++ [Ev.log "Routed to streamer"]
        else [Ev.log "Streamer not found or not open"]
  else if originRole == "streamer" && truthyS msg.toId && !msg.toStreamer then
    match mgetO st.streamers canonical with
    | none => [Ev.log "Streamer-origin message but stream entry missing"]
    | some e =>
      match mget e.viewers (getS msg.toId) with
      | some vws =>
        if wsOpen st vws then
          send st (some vws) (.forward { msg with streamId := canonical })
            ++ [Ev.log "Heuristic routed to viewer"]
        else [Ev.log "Heuristic viewer ws not found or not open"]
      | none => [Ev.log "Heuristic viewer ws not found or not open"]
  else if originRole == "viewer" && !msg.toViewer then
    if truthyS canonical = false then [Ev.log "Viewer-origin message but no streamId"]
    else
      match mget st.streamers (getS canonical) with
      | none => [Ev.log "Heuristic streamer not found or not open"]
      | some e =>
        if wsOpen st e.ws then
          send st (some e.ws) (.forward { msg with streamId := canonical })
            ++ [Ev.log "Heuristic routed to streamer"]
        else [Ev.log "Heuristic streamer not found or not open"]
  else [Ev.log "Unhandled routing for message"]

/-- The message handler of server.js (ws.on message, lines 32-185). -/
def onMessage (st : State) (cid : String) (c : Conn) (m : Option Msg) (fresh : String)
    (now : Nat) : State × List Ev :=
  match m with
  | none => (st, [Ev.log "Invalid JSON received"])
  | some msg =>
    if msg.ty == "identify" then identifyH st cid c msg fresh now
    else if msg.ty == "offer" || msg.ty == "answer"
        || msg.ty == "candidate" || msg.ty == "leave" then
      (st, route st c msg)
    else (st, [Ev.log "Unknown message type"])

/-- Per-viewer body of the streamer-close teardown of server.js (lines 195-198): a
best-effort send through the helper, then an unconditional close() on the viewer
socket (the try/catch around close is absorbed: close on a dead socket is the
event all the same). -/
def closeLoop (st : State) (sid : Option String) : List (String × String) → List Ev :=
  flatL fun p => send st (some p.2) (.streamEnded sid) ++ [Ev.closed p.2]

/-- The close handler of server.js (ws.on close, lines 187-213). -/
def onClose (st : State) (cid : String) (c : Conn) : State × List Ev :=
  if truthyS c.role = false then (st, [])
  else if c.role == some "streamer" then
    match mgetO st.streamers c.streamId with
    | none => (st, [])
    | some e =>
      ({ st with streamers := mdelO st.streamers c.streamId },
       closeLoop st c.streamId e.viewers ++ [Ev.log "Streamer disconnected and removed"])
  else if c.role == some "viewer" then
    match c.streamId with
    | none => (st, [])
    | some sid =>
      match mget st.streamers sid with
      | none => (st, [])
      | some e =>
        let e1 : Entry := { e with viewers := mdelO e.viewers c.viewerId }
        ({ st with streamers := mset st.streamers sid e1 },
         send st (some e.ws) (.viewerLeft c.viewerId) ++ [Ev.log "Viewer disconnected"])
  else (st, [])

/-- One pass over the registry entries of the periodic cleanup of server.js
(lines 217-225): every entry whose socket is not open has stream-ended sent through
the guarded helper to each of its viewers and is then deleted, with a console line;
the sweep closes no socket. -/
def sweepLoop (st : State) : List (String × Entry) → List (String × Entry) × List Ev
  | [] => ([], [])
  | (sid, e) :: rest =>
    let r := sweepLoop st rest
    if wsOpen st e.ws then ((sid, e) :: r.1, r.2)
    else
      (r.1, (flatL (fun p => send st (some p.2) (.streamEnded (some sid))) e.viewers
        ++ [Ev.log "Cleaned up streamer"]) ++ r.2)

/-- The periodic cleanup of server.js. -/
def sweep (st : State) : State × List Ev :=
  let r := sweepLoop st st.streamers
  ({ st with streamers := r.1 }, r.2)

end SJ

/-! Generic lemmas about the Map operations, counting and loop traces. -/

theorem mget_mset_self {α : Type} (k : String) (v : α) :
    ∀ m : List (String × α), mget (mset m k v) k = some v := by
  intro m
  induction m with
  | nil => simp [mget, mset]
  | cons hd tl ih =>
    rcases hd with ⟨k0, v0⟩
    by_cases h : k0 = k
    · simp [mset, h, mget]
    · simp [mset, h, mget, ih]

theorem mget_mset_ne {α : Type} (k k' : String) (v : α) (hne : k' ≠ k) :
    ∀ m : List (String × α), mget (mset m k v) k' = mget m k' := by
  intro m
  induction m with
  | nil => simp [mget, mset, Ne.symm hne]
  | cons hd tl ih =>
    rcases hd with ⟨k0, v0⟩
    by_cases h : k0 = k
    · subst h
      simp [mset, mget, Ne.symm hne]
    · simp [mset, h, mget, ih]

theorem mset_mset_self {α : Type} (k : String) (a b : α) :
    ∀ m : List (String × α), mset (mset m k a) k b = mset m k b := by
  intro m
  induction m with
  | nil => simp [mset]
  | cons hd tl ih =>
    rcases hd with ⟨k0, v0⟩
    by_cases h : k0 = k
    · simp [mset, h]
    · simp [mset, h, ih]

theorem mget_eq_none_of_not_mem_keys {α : Type} (k : String) :
    ∀ m : List (String × α), k ∉ m.map Prod.fst → mget m k = none := by
  intro m
  induction m with
  | nil => intro _; rfl
  | cons hd tl ih =>
    rcases hd with ⟨k0, v0⟩
    intro h
    have h0 : k0 ≠ k := by
      intro he
      exact h (by simp [he])
    have htl : k ∉ tl.map Prod.fst := by
      intro hm
      exact h (by simp [hm])
    simp [mget, h0, ih htl]

theorem mget_mdel_self {α : Type} (k : String) :
    ∀ m : List (String × α), (m.map Prod.fst).Nodup → mget (mdel m k) k = none := by
  intro m
  induction m with
  | nil => intro _; rfl
  | cons hd tl ih =>
    rcases hd with ⟨k0, v0⟩
    intro hnd
    have hnd' : (tl.map Prod.fst).Nodup := (List.nodup_cons.mp hnd).2
    by_cases h : k0 = k
    · subst h
      have : k0 ∉ tl.map Prod.fst := (List.nodup_cons.mp hnd).1
      simp [mdel, mget_eq_none_of_not_mem_keys k0 tl this]
    · simp [mdel, h, mget, ih hnd']

theorem cnt_append {α : Type} [DecidableEq α] (a : α) :
    ∀ l l' : List α, cnt a (l ++ l') = cnt a l + cnt a l' := by
  intro l l'
  induction l with
  | nil => simp [cnt]
  | cons b tl ih => simp [cnt, ih]; omega

theorem not_mem_of_cnt_zero {α : Type} [DecidableEq α] (a : α) :
    ∀ l : List α, cnt a l = 0 → a ∉ l := by
  intro l
  induction l with
  | nil => intro _ h; cases h
  | cons b tl ih =>
    intro h hm
    by_cases hb : b = a
    · simp [cnt, hb] at h
    · rcases List.mem_cons.mp hm with he | ht
      · exact hb he.symm
      · simp [cnt, hb] at h
        exact ih h ht

theorem cnt_flatL_zero {α β : Type} [DecidableEq β] (f : α → List β) (t : β) :
    ∀ l : List α, (∀ x ∈ l, cnt t (f x) = 0) → cnt t (flatL f l) = 0 := by
  intro l
  induction l with
  | nil => intro _; rfl
  | cons x tl ih =>
    intro h
    have hx := h x (by simp)
    have htl := ih fun y hy => h y (by simp [hy])
    simp [flatL, cnt_append, hx, htl]

theorem mem_flatL {α β : Type} (f : α → List β) {x : β} {p : α} :
    ∀ l : List α, p ∈ l → x ∈ f p → x ∈ flatL f l := by
  intro l
  induction l with
  | nil => intro h; cases h
  | cons b tl ih =>
    intro hp hx
    rcases List.mem_cons.mp hp with he | ht
    · subst he
      exact List.mem_append.mpr (Or.inl hx)
    · exact List.mem_append.mpr (Or.inr (ih ht hx))

theorem cnt_flatL_pair {β : Type} [DecidableEq β] (f : String × String → List β) (t : β)
    (vid vc : String) (hf : ∀ p : String × String, p.2 ≠ vc → cnt t (f p) = 0) :
    ∀ l : List (String × String), (vid, vc) ∈ l → cnt vc (l.map Prod.snd) = 1 →
      cnt t (flatL f l) = cnt t (f (vid, vc)) := by
  intro l
  induction l with
  | nil => intro h; cases h
  | cons hd tl ih =>
    rcases hd with ⟨a, b⟩
    intro hmem hcnt
    by_cases hb : b = vc
    · subst hb
      have h0 : cnt b (tl.map Prod.snd) = 0 := by
        simp [cnt] at hcnt
        exact hcnt
      have hnm : b ∉ tl.map Prod.snd := not_mem_of_cnt_zero b _ h0
      have htl0 : ∀ p ∈ tl, cnt t (f p) = 0 := by
        intro p hp
        apply hf
        intro he
        exact hnm (he ▸ List.mem_map_of_mem Prod.snd hp)
      have hz : cnt t (flatL f tl) = 0 := cnt_flatL_zero f t tl htl0
      rcases List.mem_cons.mp hmem with he | ht
      · have hva : vid = a := congrArg Prod.fst he
        subst hva
        simp [flatL, cnt_append, hz]
      · exact absurd (List.mem_map_of_mem Prod.snd ht) hnm
    · have hhd : cnt t (f (a, b)) = 0 := hf (a, b) hb
      have hcnt' : cnt vc (tl.map Prod.snd) = 1 := by
        simp [cnt, fun h : b = vc => hb h] at hcnt
        simpa [cnt, hb] using hcnt
      have hmem' : (vid, vc) ∈ tl := by
        rcases List.mem_cons.mp hmem with he | ht
        · exact absurd (congrArg Prod.snd he).symm hb
        · exact ht
      simp [flatL, cnt_append, hhd, ih hmem' hcnt']

/-! Shape lemmas about the guarded send helper of server.js and the two sweeps. -/

theorem SJ.send_eq_of_open (st : SJ.State) (w : String) (m : SJ.OutMsg) (cw : SJ.Conn)
    (hw : mget st.conns w = some cw) (hrdy : cw.readyState = WSOPEN)
    (hok : cw.sendFails = false) : SJ.send st (some w) m = [SJ.Ev.sent w m] := by
  simp [SJ.send, SJ.sendE, hw, hrdy, SJ.rawSend, hok]

theorem SJ.send_eq_nil_of_dead (st : SJ.State) (w : String) (m : SJ.OutMsg)
    (hdead : SJ.wsOpen st w = false) : SJ.send st (some w) m = [] := by
  unfold SJ.send SJ.sendE
  unfold SJ.wsOpen at hdead
  match hmg : mget st.conns w with
  | none => simp [hmg]
  | some cw =>
    rw [hmg] at hdead
    simp at hdead
    simp [hmg, hdead]

theorem SJ.cnt_closed_send (st : SJ.State) (ws : Option String) (m : SJ.OutMsg)
    (x : String) : cnt (SJ.Ev.closed x) (SJ.send st ws m) = 0 := by
  unfold SJ.send SJ.sendE
  match ws with
  | none => rfl
  | some w =>
    match hmg : mget st.conns w with
    | none => simp [hmg, cnt]
    | some cw =>
      by_cases hr : cw.readyState = WSOPEN
      · by_cases hf : cw.sendFails
        · simp [hmg, hr, SJ.rawSend, hf, cnt]
        · simp [hmg, hr, SJ.rawSend, hf, cnt]
      · simp [hmg, hr, cnt]

theorem SJ.cnt_sent_send_ne (st : SJ.State) (w v : String) (m m' : SJ.OutMsg)
    (hne : w ≠ v) : cnt (SJ.Ev.sent v m') (SJ.send st (some w) m) = 0 := by
  unfold SJ.send SJ.sendE
  match hmg : mget st.conns w with
  | none => simp [hmg, cnt]
  | some cw =>
    by_cases hr : cw.readyState = WSOPEN
    · by_cases hf : cw.sendFails
      · simp [hmg, hr, SJ.rawSend, hf, cnt]
      · simp [hmg, hr, SJ.rawSend, hf, cnt, hne]
    · simp [hmg, hr, cnt]

theorem P0.sweepLoop_mget_none_of_not_mem (st : P0.State) (sid : String) :
    ∀ l : List (String × P0.Stream), sid ∉ l.map Prod.fst →
      mget (P0.sweepLoop st l).1 sid = none := by
  intro l
  induction l with
  | nil => intro _; rfl
  | cons hd tl ih =>
    rcases hd with ⟨k, e⟩
    intro h
    have hk : k ≠ sid := fun he => h (by simp [he])
    have htl : sid ∉ tl.map Prod.fst := fun hm => h (by simp [hm])
    by_cases ho : P0.wsOpen st e.streamer
    · simp [P0.sweepLoop, ho, mget, hk, ih htl]
    · simp [P0.sweepLoop, ho, ih htl]

theorem P0.sweepLoop_removes (st : P0.State) (sid : String) (e : P0.Stream)
    (hdead : P0.wsOpen st e.streamer = false) :
    ∀ l : List (String × P0.Stream), (l.map Prod.fst).Nodup → mget l sid = some e →
      mget (P0.sweepLoop st l).1 sid = none := by
  intro l
  induction l with
  | nil => intro _ h; cases h
  | cons hd tl ih =>
    rcases hd with ⟨k, v⟩
    intro hnd hmg
    have hnd' : (tl.map Prod.fst).Nodup := (List.nodup_cons.mp hnd).2
    by_cases hk : k = sid
    · subst hk
      simp [mget] at hmg
      subst hmg
      have hnm : k ∉ tl.map Prod.fst := (List.nodup_cons.mp hnd).1
      simp [P0.sweepLoop, hdead, P0.sweepLoop_mget_none_of_not_mem st k tl hnm]
    · simp [mget, hk] at hmg
      by_cases ho : P0.wsOpen st v.streamer
      · simp [P0.sweepLoop, ho, mget, hk, ih hnd' hmg]
      · simp [P0.sweepLoop, ho, ih hnd' hmg]

theorem SJ.sweepLoop_entry_mget_none_of_not_mem (st : SJ.State) (sid : String) :
    ∀ l : List (String × SJ.Entry), sid ∉ l.map Prod.fst →
      mget (SJ.sweepLoop st l).1 sid = none := by
  intro l
  induction l with
  | nil => intro _; rfl
  | cons hd tl ih =>
    rcases hd with ⟨k, e⟩
    intro h
    have hk : k ≠ sid := fun he => h (by simp [he])
    have htl : sid ∉ tl.map Prod.fst := fun hm => h (by simp [hm])
    by_cases ho : SJ.wsOpen st e.ws
    · simp [SJ.sweepLoop, ho, mget, hk, ih htl]
    · simp [SJ.sweepLoop, ho, ih htl]

theorem SJ.sweepLoop_removes_entry (st : SJ.State) (sid : String) (e : SJ.Entry)
    (hdead : SJ.wsOpen st e.ws = false) :
    ∀ l : List (String × SJ.Entry), (l.map Prod.fst).Nodup → mget l sid = some e →
      mget (SJ.sweepLoop st l).1 sid = none := by
  intro l
  induction l with
  | nil => intro _ h; cases h
  | cons hd tl ih =>
    rcases hd with ⟨k, v⟩
    intro hnd hmg
    have hnd' : (tl.map Prod.fst).Nodup := (List.nodup_cons.mp hnd).2
    by_cases hk : k = sid
    · subst hk
      simp [mget] at hmg
      subst hmg
      have hnm : k ∉ tl.map Prod.fst := (List.nodup_cons.mp hnd).1
      simp [SJ.sweepLoop, hdead, SJ.sweepLoop_entry_mget_none_of_not_mem st k tl hnm]
    · simp [mget, hk] at hmg
      by_cases ho : SJ.wsOpen st v.ws
      · simp [SJ.sweepLoop, ho, mget, hk, ih hnd' hmg]
      · simp [SJ.sweepLoop, ho, ih hnd' hmg]

theorem SJ.sweepLoop_no_closed (st : SJ.State) (x : String) :
    ∀ l : List (String × SJ.Entry), SJ.Ev.closed x ∉ (SJ.sweepLoop st l).2 := by
  intro l
  induction l with
  | nil => intro h; cases h
  | cons hd tl ih =>
    rcases hd with ⟨k, e⟩
    by_cases ho : SJ.wsOpen st e.ws
    · simpa [SJ.sweepLoop, ho] using ih
    · have hz : cnt (SJ.Ev.closed x) (flatL
          (fun p => SJ.send st (some p.2) (.streamEnded (some k))) e.viewers) = 0 := by
        apply cnt_flatL_zero
        intro p _
        exact SJ.cnt_closed_send st (some p.2) _ x
      simp [SJ.sweepLoop, ho]
      exact ⟨not_mem_of_cnt_zero _ _ hz, ih⟩

theorem SJ.sweepLoop_sent_mem (st : SJ.State) (sid : String) (e : SJ.Entry)
    (p : String × String) (cw : SJ.Conn) (hdead : SJ.wsOpen st e.ws = false)
    (hp : p ∈ e.viewers) (hw : mget st.conns p.2 = some cw)
    (hrdy : cw.readyState = WSOPEN) (hok : cw.sendFails = false) :
    ∀ l : List (String × SJ.Entry), mget l sid = some e →
      SJ.Ev.sent p.2 (.streamEnded (some sid)) ∈ (SJ.sweepLoop st l).2 := by
  intro l
  induction l with
  | nil => intro h; cases h
  | cons hd tl ih =>
    rcases hd with ⟨k, v⟩
    intro hmg
    by_cases hk : k = sid
    · subst hk
      simp [mget] at hmg
      subst hmg
      have hmemf : SJ.Ev.sent p.2 (.streamEnded (some k)) ∈ flatL
          (fun q : String × String => SJ.send st (some q.2) (.streamEnded (some k))) v.viewers := by
        refine mem_flatL _ v.viewers hp ?_
        rw [SJ.send_eq_of_open st p.2 _ cw hw hrdy hok]
        simp
      simp only [SJ.sweepLoop, hdead]
      simp only [Bool.false_eq_true, if_false]
      exact List.mem_append.mpr (Or.inl (List.mem_append.mpr (Or.inl hmemf)))
    · simp [mget, hk] at hmg
      by_cases ho : SJ.wsOpen st v.ws
      · simpa [SJ.sweepLoop, ho] using ih hmg
      · simp [SJ.sweepLoop, ho]
        exact Or.inr (ih hmg)

/-! Claim theorems. -/

/-- C9: in both variants an unparsable payload and a message of unrecognized type are
only logged: the handler returns the state entirely unchanged together with a single
console event, so no reply is sent, the sender is not closed, and neither the registry,
any session, nor the sender's connection fields change. -/
theorem C9_malformed_and_unknown_ignored :
    (∀ (st : P0.State) (cid : String) (c : P0.Conn) (fresh : String) (now : Nat)
        (url : String),
        P0.onMessage st cid c none fresh now url = (st, [P0.Ev.log "Invalid message"]))
    ∧ (∀ (st : P0.State) (cid : String) (c : P0.Conn) (msg : P0.Msg) (fresh : String)
        (now : Nat) (url : String),
        msg.ty ≠ "streamer-join" → msg.ty ≠ "viewer-join" → msg.ty ≠ "streamer-offer" →
        msg.ty ≠ "streamer-candidate" → msg.ty ≠ "viewer-answer" →
        msg.ty ≠ "viewer-candidate" →
        P0.onMessage st cid c (some msg) fresh now url
          = (st, [P0.Ev.log "Unknown message type"]))
    ∧ (∀ (st : SJ.State) (cid : String) (c : SJ.Conn) (fresh : String) (now : Nat),
        SJ.onMessage st cid c none fresh now = (st, [SJ.Ev.log "Invalid JSON received"]))
    ∧ (∀ (st : SJ.State) (cid : String) (c : SJ.Conn) (msg : SJ.Msg) (fresh : String)
        (now : Nat),
        msg.ty ≠ "identify" → msg.ty ≠ "offer" → msg.ty ≠ "answer" →
        msg.ty ≠ "candidate" → msg.ty ≠ "leave" →
        SJ.onMessage st cid c (some msg) fresh now
          = (st, [SJ.Ev.log "Unknown message type"])) := by
  refine ⟨fun _ _ _ _ _ _ => rfl, ?_, fun _ _ _ _ _ => rfl, ?_⟩
  · intro st cid c msg fresh now url h1 h2 h3 h4 h5 h6
    simp [P0.onMessage, h1, h2, h3, h4, h5, h6]
  · intro st cid c msg fresh now h1 h2 h3 h4 h5
    simp [SJ.onMessage, h1, h2, h3, h4, h5]

/-- C9 witness: the unknown-type branches at a concrete state and message. -/
theorem C9_witness :
    P0.onMessage ⟨[("a", ⟨none, none, 1⟩)], []⟩ "a" ⟨none, none, 1⟩
        (some ⟨"bogus", none, none, none, none⟩) "f" 0 "u"
      = (⟨[("a", ⟨none, none, 1⟩)], []⟩, [P0.Ev.log "Unknown message type"])
    ∧ SJ.onMessage ⟨[("a", ⟨none, none, none, 1, false⟩)], []⟩ "a"
        ⟨none, none, none, 1, false⟩
        (some ⟨"bogus", none, none, none, none, false, false, none, none, none, ""⟩) "f" 0
      = (⟨[("a", ⟨none, none, none, 1, false⟩)], []⟩, [SJ.Ev.log "Unknown message type"]) :=
  ⟨C9_malformed_and_unknown_ignored.2.1 _ _ _ _ _ _ _ (by decide) (by decide) (by decide)
      (by decide) (by decide) (by decide),
   C9_malformed_and_unknown_ignored.2.2.2 _ _ _ _ _ _ (by decide) (by decide) (by decide)
      (by decide) (by decide)⟩

/-- C10: the send helper of server.js never throws to its caller: its
exception-explicit form always returns ok with exactly the events of the total helper;
a null target, a dangling target and a non-open target make it a no-op, and an
exception raised by the underlying socket send is caught and only logged. -/
theorem C10_send_never_throws (st : SJ.State) (ws : Option String) (m : SJ.OutMsg) :
    SJ.sendE st ws m = Except.ok (SJ.send st ws m)
    ∧ (ws = none → SJ.send st ws m = [])
    ∧ (∀ cid, ws = some cid → mget st.conns cid = none → SJ.send st ws m = [])
    ∧ (∀ cid cw, ws = some cid → mget st.conns cid = some cw → cw.readyState ≠ WSOPEN →
        SJ.send st ws m = [])
    ∧ (∀ cid cw, ws = some cid → mget st.conns cid = some cw → cw.readyState = WSOPEN →
        cw.sendFails = true →
        SJ.send st ws m = [SJ.Ev.log "Failed to send ws message"]) := by
  refine ⟨?_, ?_, ?_, ?_, ?_⟩
  · match ws with
    | none => rfl
    | some w =>
      unfold SJ.send SJ.sendE
      match hmg : mget st.conns w with
      | none => simp [hmg]
      | some cw =>
        by_cases hr : cw.readyState = WSOPEN
        · by_cases hf : cw.sendFails
          · simp [hmg, hr, SJ.rawSend, hf]
          · simp [hmg, hr, SJ.rawSend, hf]
        · simp [hmg, hr]
  · intro h
    subst h
    rfl
  · intro w h hmg
    subst h
    simp [SJ.send, SJ.sendE, hmg]
  · intro w cw h hmg hr
    subst h
    simp [SJ.send, SJ.sendE, hmg, hr]
  · intro w cw h hmg hr hf
    subst h
    simp [SJ.send, SJ.sendE, hmg, hr, SJ.rawSend, hf]

/-- C10 witness: the helper at a concrete open socket, a concrete closed socket and a
concrete raising socket. -/
theorem C10_witness :
    SJ.sendE ⟨[("a", ⟨none, none, none, 1, false⟩)], []⟩ (some "a")
        (SJ.OutMsg.viewerJoined "x")
      = Except.ok (SJ.send ⟨[("a", ⟨none, none, none, 1, false⟩)], []⟩ (some "a")
          (SJ.OutMsg.viewerJoined "x"))
    ∧ SJ.send ⟨[("b", ⟨none, none, none, 0, false⟩)], []⟩ (some "b")
        (SJ.OutMsg.viewerJoined "x") = []
    ∧ SJ.send ⟨[("d", ⟨none, none, none, 1, true⟩)], []⟩ (some "d")
        (SJ.OutMsg.viewerJoined "x") = [SJ.Ev.log "Failed to send ws message"] :=
  ⟨(C10_send_never_throws _ _ _).1,
   (C10_send_never_throws _ _ _).2.2.2.1 "b" ⟨none, none, none, 0, false⟩ rfl (by decide)
     (by decide),
   (C10_send_never_throws _ _ _).2.2.2.2 "d" ⟨none, none, none, 1, true⟩ rfl (by decide)
     (by decide) (by decide)⟩

/-- C3 counterexample: in server.js an identify(streamer) message carrying
streamId evil registers the new session under the client-supplied id evil, not under
the freshly generated uuid. -/
theorem C3_counterexample :
    mget (SJ.onMessage ⟨[("c1", ⟨none, none, none, 1, false⟩)], []⟩ "c1"
        ⟨none, none, none, 1, false⟩
        (some ⟨"identify", some "streamer", some "evil", none, none, false, false, none,
          none, none, ""⟩) "fresh-uuid" 0).1.streamers "evil"
      = some ⟨"c1", [], 0⟩
    ∧ "evil" ≠ "fresh-uuid" := ⟨by decide, by decide⟩

/-- C3 amended: in part_000 a streamer-join registers the new session under the
server-generated uuid and its outcome does not depend on any field of the message
besides its type; in server.js a truthy client-supplied streamId is reused as the
registry key, a fresh uuid being used only when the message carries none. -/
theorem C3_amended :
    (∀ (st : P0.State) (cid : String) (c : P0.Conn) (msg msg2 : P0.Msg) (fresh : String)
        (now : Nat) (url : String), msg.ty = "streamer-join" → msg2.ty = "streamer-join" →
        P0.onMessage st cid c (some msg) fresh now url
          = P0.onMessage st cid c (some msg2) fresh now url
        ∧ mget (P0.onMessage st cid c (some msg) fresh now url).1.streams fresh
          = some ⟨cid, [], now, cid⟩)
    ∧ (∀ (st : SJ.State) (cid : String) (c : SJ.Conn) (msg : SJ.Msg) (fresh : String)
        (now : Nat) (s : String), msg.ty = "identify" → msg.role = some "streamer" →
        msg.streamId = some s → s ≠ "" →
        mget (SJ.onMessage st cid c (some msg) fresh now).1.streamers s
          = some ⟨cid, [], now⟩)
    ∧ (∀ (st : SJ.State) (cid : String) (c : SJ.Conn) (msg : SJ.Msg) (fresh : String)
        (now : Nat), msg.ty = "identify" → msg.role = some "streamer" →
        msg.streamId = none →
        mget (SJ.onMessage st cid c (some msg) fresh now).1.streamers fresh
          = some ⟨cid, [], now⟩) := by
  refine ⟨?_, ?_, ?_⟩
  · intro st cid c msg msg2 fresh now url h1 h2
    constructor
    · simp [P0.onMessage, h1, h2]
    · simp [P0.onMessage, h1, mget_mset_self]
  · intro st cid c msg fresh now s h1 h2 h3 h4
    simp [SJ.onMessage, SJ.identifyH, h1, h2, h3, jsOrS, truthyS, h4, mget_mset_self]
  · intro st cid c msg fresh now h1 h2 h3
    simp [SJ.onMessage, SJ.identifyH, h1, h2, h3, jsOrS, truthyS, mget_mset_self]

/-- C3 witness: both parts at concrete inputs. -/
theorem C3_witness :
    mget (P0.onMessage ⟨[("a", ⟨none, none, 1⟩)], []⟩ "a" ⟨none, none, 1⟩
        (some ⟨"streamer-join", none, none, none, none⟩) "u1" 7 "base").1.streams "u1"
      = some ⟨"a", [], 7, "a"⟩
    ∧ mget (SJ.onMessage ⟨[("b", ⟨none, none, none, 1, false⟩)], []⟩ "b"
        ⟨none, none, none, 1, false⟩
        (some ⟨"identify", some "streamer", none, none, none, false, false, none, none,
          none, ""⟩) "u2" 9).1.streamers "u2" = some ⟨"b", [], 9⟩ :=
  ⟨(C3_amended.1 _ _ _ ⟨"streamer-join", none, none, none, none⟩
      ⟨"streamer-join", none, none, none, none⟩ _ _ _ (by decide) (by decide)).2,
   C3_amended.2.2 _ _ _ _ _ _ (by decide) (by decide) (by decide)⟩

/-- C7 counterexample: part_000 reassigns an already-assigned role: a connection whose
role is viewer becomes a streamer when it later sends streamer-join. -/
theorem C7_counterexample :
    mget (P0.onMessage ⟨[("v1", ⟨some "viewer", some "sid", 1⟩)],
        [("sid", ⟨"s", [("v1", "v1")], 0, "s"⟩)]⟩ "v1" ⟨some "viewer", some "sid", 1⟩
        (some ⟨"streamer-join", none, none, none, none⟩) "f2" 0 "u").1.conns "v1"
      = some ⟨some "streamer", some "f2", 1⟩
    ∧ (some "viewer" : Option String) ≠ some "streamer" := ⟨by decide, by decide⟩

/-- C7 amended: both variants assign the connection role unconditionally on every
join/identify message: a part_000 streamer-join sets role streamer and a fresh
streamId whatever the previous role was, and the identify case of server.js
overwrites the stored role with the role field of the message, whatever both were. -/
theorem C7_amended :
    (∀ (st : P0.State) (cid : String) (c : P0.Conn) (msg : P0.Msg) (fresh : String)
        (now : Nat) (url : String), msg.ty = "streamer-join" →
        mget (P0.onMessage st cid c (some msg) fresh now url).1.conns cid
          = some { c with role := some "streamer", streamId := some fresh })
    ∧ (∀ (st : SJ.State) (cid : String) (c : SJ.Conn) (msg : SJ.Msg) (fresh : String)
        (now : Nat), msg.ty = "identify" → msg.role ≠ some "streamer" →
        msg.role ≠ some "viewer" →
        SJ.onMessage st cid c (some msg) fresh now
          = ({ st with conns := mset st.conns cid { c with role := msg.role } }, [])) := by
  constructor
  · intro st cid c msg fresh now url h1
    simp [P0.onMessage, h1, mget_mset_self]
  · intro st cid c msg fresh now h1 h2 h3
    simp [SJ.onMessage, SJ.identifyH, h1, h2, h3]

/-- C7 witness: a concrete role overwrite in each variant. -/
theorem C7_witness :
    mget (P0.onMessage ⟨[("a", ⟨some "viewer", some "z", 1⟩)], []⟩ "a"
        ⟨some "viewer", some "z", 1⟩ (some ⟨"streamer-join", none, none, none, none⟩)
        "w" 3 "u").1.conns "a" = some ⟨some "streamer", some "w", 1⟩
    ∧ SJ.onMessage ⟨[("b", ⟨some "viewer", none, none, 1, false⟩)], []⟩ "b"
        ⟨some "viewer", none, none, 1, false⟩
        (some ⟨"identify", some "junk", none, none, none, false, false, none, none,
          none, ""⟩) "w" 3
      = (⟨[("b", ⟨some "junk", none, none, 1, false⟩)], []⟩, []) :=
  ⟨C7_amended.1 _ _ _ _ _ _ _ (by decide),
   by
    have h := C7_amended.2 ⟨[("b", ⟨some "viewer", none, none, 1, false⟩)], []⟩ "b"
      ⟨some "viewer", none, none, 1, false⟩
      ⟨"identify", some "junk", none, none, none, false, false, none, none, none, ""⟩
      "w" 3 (by decide) (by decide) (by decide)
    simpa [mset] using h⟩

/-- C8 counterexample: in server.js a second connection that identifies as streamer
with an already-registered client-supplied streamId is stored in the registry under
that id, whereupon both connections hold the Streamer role for the same session id. -/
theorem C8_counterexample :
    mget (SJ.onMessage ⟨[("c1", ⟨some "streamer", some "sid", none, 1, false⟩),
        ("c2", ⟨none, none, none, 1, false⟩)], [("sid", ⟨"c1", [], 0⟩)]⟩ "c2"
        ⟨none, none, none, 1, false⟩
        (some ⟨"identify", some "streamer", some "sid", none, none, false, false, none,
          none, none, ""⟩) "fr" 5).1.streamers "sid" = some ⟨"c2", [], 5⟩
    ∧ mget (SJ.onMessage ⟨[("c1", ⟨some "streamer", some "sid", none, 1, false⟩),
        ("c2", ⟨none, none, none, 1, false⟩)], [("sid", ⟨"c1", [], 0⟩)]⟩ "c2"
        ⟨none, none, none, 1, false⟩
        (some ⟨"identify", some "streamer", some "sid", none, none, false, false, none,
          none, none, ""⟩) "fr" 5).1.conns "c1"
      = some ⟨some "streamer", some "sid", none, 1, false⟩
    ∧ mget (SJ.onMessage ⟨[("c1", ⟨some "streamer", some "sid", none, 1, false⟩),
        ("c2", ⟨none, none, none, 1, false⟩)], [("sid", ⟨"c1", [], 0⟩)]⟩ "c2"
        ⟨none, none, none, 1, false⟩
        (some ⟨"identify", some "streamer", some "sid", none, none, false, false, none,
          none, none, ""⟩) "fr" 5).1.conns "c2"
      = some ⟨some "streamer", some "sid", none, 1, false⟩
    ∧ "c1" ≠ "c2" := ⟨by decide, by decide, by decide, by decide⟩

/-- C8 amended: a part_000 streamer-join touches no existing registry key — the new
session lives under the fresh server-generated uuid only, so no second streamer is
ever stored under an id already registered; in server.js, by contrast, an identify
carrying an already-registered streamId replaces the stored entry with the new
connection while the previous streamer keeps its role and session id, so two
connections may hold the Streamer role for one session id. -/
theorem C8_amended :
    (∀ (st : P0.State) (cid : String) (c : P0.Conn) (msg : P0.Msg) (fresh : String)
        (now : Nat) (url : String) (k : String), msg.ty = "streamer-join" → k ≠ fresh →
        mget (P0.onMessage st cid c (some msg) fresh now url).1.streams k
          = mget st.streams k)
    ∧ (∀ (st : SJ.State) (cid : String) (c : SJ.Conn) (msg : SJ.Msg) (fresh : String)
        (now : Nat) (s : String) (old : SJ.Entry), msg.ty = "identify" →
        msg.role = some "streamer" → msg.streamId = some s → s ≠ "" →
        mget st.streamers s = some old →
        mget (SJ.onMessage st cid c (some msg) fresh now).1.streamers s
          = some ⟨cid, [], now⟩
        ∧ (∀ cid2 c2, mget st.conns cid2 = some c2 → cid2 ≠ cid →
            mget (SJ.onMessage st cid c (some msg) fresh now).1.conns cid2 = some c2)) := by
  constructor
  · intro st cid c msg fresh now url k h1 h2
    simp [P0.onMessage, h1, mget_mset_ne fresh k _ h2]
  · intro st cid c msg fresh now s old h1 h2 h3 h4 h5
    constructor
    · simp [SJ.onMessage, SJ.identifyH, h1, h2, h3, jsOrS, truthyS, h4, mget_mset_self]
    · intro cid2 c2 hmg hne
      simp [SJ.onMessage, SJ.identifyH, h1, h2, h3, jsOrS, truthyS, h4,
        mget_mset_ne cid cid2 _ hne, hmg]

/-- C8 witness: both parts at concrete inputs. -/
theorem C8_witness :
    mget (P0.onMessage ⟨[("a", ⟨none, none, 1⟩)], [("old", ⟨"a", [], 0, "a"⟩)]⟩ "a"
        ⟨none, none, 1⟩ (some ⟨"streamer-join", none, none, none, none⟩) "nu" 2
        "u").1.streams "old" = mget [("old", (⟨"a", [], 0, "a"⟩ : P0.Stream))] "old"
    ∧ mget (SJ.onMessage ⟨[("b", ⟨none, none, none, 1, false⟩)],
        [("sid", ⟨"z", [], 0⟩)]⟩ "b" ⟨none, none, none, 1, false⟩
        (some ⟨"identify", some "streamer", some "sid", none, none, false, false, none,
          none, none, ""⟩) "fr" 4).1.streamers "sid" = some ⟨"b", [], 4⟩ :=
  ⟨C8_amended.1 _ _ _ _ _ _ _ _ (by decide) (by decide),
   (C8_amended.2 _ _ _ _ _ _ _ ⟨"z", [], 0⟩ (by decide) (by decide) (by decide) (by decide)
     (by decide)).1⟩

/-- C1 counterexample: a part_000 viewer-join naming a session that is present in the
registry but whose streamer socket is not open does change state: the session is
deleted from the registry. -/
theorem C1_counterexample :
    (P0.onMessage ⟨[("s", ⟨some "streamer", some "sid", 0⟩), ("v", ⟨none, none, 1⟩)],
        [("sid", ⟨"s", [], 0, "s"⟩)]⟩ "v" ⟨none, none, 1⟩
        (some ⟨"viewer-join", some "sid", none, none, none⟩) "f" 0 "u").1.streams
      ≠ [("sid", ⟨"s", [], 0, "s"⟩)] := by decide

/-- C1 amended: a part_000 viewer-join naming an absent session replies with an error,
closes the joining socket and changes no state at all; naming a session whose streamer
socket is not open it replies with an error and closes the joining socket but also
deletes the session from the registry; in server.js the failure reply (no-stream) is
sent without closing the joining socket and with the registry unchanged, but the
joining connection's role, streamId and viewerId fields have already been assigned
before the lookup. -/
theorem C1_amended :
    (∀ (st : P0.State) (cid : String) (c : P0.Conn) (msg : P0.Msg) (fresh : String)
        (now : Nat) (url : String) (sid : String), msg.ty = "viewer-join" →
        msg.streamId = some sid → mget st.streams sid = none →
        P0.onMessage st cid c (some msg) fresh now url
          = (st, [P0.Ev.sent cid (.errorMsg "Stream not found or has ended"),
                  P0.Ev.log "Viewer tried to join non-existent stream",
                  P0.Ev.closed cid]))
    ∧ (∀ (st : P0.State) (cid : String) (c : P0.Conn) (msg : P0.Msg) (fresh : String)
        (now : Nat) (url : String) (sid : String) (e : P0.Stream),
        msg.ty = "viewer-join" → msg.streamId = some sid →
        mget st.streams sid = some e → P0.wsOpen st e.streamer = false →
        P0.onMessage st cid c (some msg) fresh now url
          = ({ st with streams := mdel st.streams sid },
             [P0.Ev.sent cid (.errorMsg "Streamer has disconnected"),
              P0.Ev.log "Viewer tried to join stream with disconnected streamer",
              P0.Ev.closed cid]))
    ∧ (∀ (st : SJ.State) (cid : String) (c : SJ.Conn) (msg : SJ.Msg) (fresh : String)
        (now : Nat) (sid : String), msg.ty = "identify" → msg.role = some "viewer" →
        msg.streamId = some sid → sid ≠ "" → mget st.streamers sid = none →
        c.readyState = WSOPEN → c.sendFails = false →
        SJ.onMessage st cid c (some msg) fresh now
          = ({ st with conns := (mset st.conns cid
                ⟨some "viewer", some sid, some (jsOrS msg.viewerId fresh),
                  c.readyState, c.sendFails⟩) },
             [SJ.Ev.sent cid (.noStream "Streamer not available"),
              SJ.Ev.log "Viewer attempted join but no streamer"])) := by
  refine ⟨?_, ?_, ?_⟩
  · intro st cid c msg fresh now url sid h1 h2 h3
    simp [P0.onMessage, h1, h2, mgetO, h3]
  · intro st cid c msg fresh now url sid e h1 h2 h3 h4
    simp [P0.onMessage, h1, h2, mgetO, mdelO, h3, h4]
  · intro st cid c msg fresh now sid h1 h2 h3 h4 h5 h6 h7
    simp [SJ.onMessage, SJ.identifyH, h1, h2, h3, truthyS, h4, getS, mset_mset_self,
      mget_mset_self, h5, SJ.send, SJ.sendE, SJ.rawSend, h6, h7]

/-- C1 witness: all three parts at concrete inputs. -/
theorem C1_witness :
    P0.onMessage ⟨[("v", ⟨none, none, 1⟩)], []⟩ "v" ⟨none, none, 1⟩
        (some ⟨"viewer-join", some "nope", none, none, none⟩) "f" 0 "u"
      = (⟨[("v", ⟨none, none, 1⟩)], []⟩,
         [P0.Ev.sent "v" (.errorMsg "Stream not found or has ended"),
          P0.Ev.log "Viewer tried to join non-existent stream", P0.Ev.closed "v"])
    ∧ P0.onMessage ⟨[("s", ⟨some "streamer", some "sid", 0⟩), ("v", ⟨none, none, 1⟩)],
        [("sid", ⟨"s", [], 0, "s"⟩)]⟩ "v" ⟨none, none, 1⟩
        (some ⟨"viewer-join", some "sid", none, none, none⟩) "f" 0 "u"
      = (⟨[("s", ⟨some "streamer", some "sid", 0⟩), ("v", ⟨none, none, 1⟩)], []⟩,
         [P0.Ev.sent "v" (.errorMsg "Streamer has disconnected"),
          P0.Ev.log "Viewer tried to join stream with disconnected streamer",
          P0.Ev.closed "v"])
    ∧ SJ.onMessage ⟨[("w", ⟨none, none, none, 1, false⟩)], []⟩ "w"
        ⟨none, none, none, 1, false⟩
        (some ⟨"identify", some "viewer", some "nope", none, none, false, false, none,
          none, none, ""⟩) "fv" 0
      = (⟨[("w", ⟨some "viewer", some "nope", some "fv", 1, false⟩)], []⟩,
         [SJ.Ev.sent "w" (.noStream "Streamer not available"),
          SJ.Ev.log "Viewer attempted join but no streamer"]) := by
  refine ⟨C1_amended.1 ⟨[("v", ⟨none, none, 1⟩)], []⟩ "v" ⟨none, none, 1⟩
    ⟨"viewer-join", some "nope", none, none, none⟩ "f" 0 "u" "nope" (by decide) (by decide)
    (by decide), ?_, ?_⟩
  · have h := C1_amended.2.1 ⟨[("s", ⟨some "streamer", some "sid", 0⟩),
      ("v", ⟨none, none, 1⟩)], [("sid", ⟨"s", [], 0, "s"⟩)]⟩ "v" ⟨none, none, 1⟩
      ⟨"viewer-join", some "sid", none, none, none⟩ "f" 0 "u" "sid" ⟨"s", [], 0, "s"⟩
      (by decide) (by decide) (by decide) (by decide)
    simpa [mdel] using h
  · have h := C1_amended.2.2 ⟨[("w", ⟨none, none, none, 1, false⟩)], []⟩ "w"
      ⟨none, none, none, 1, false⟩
      ⟨"identify", some "viewer", some "nope", none, none, false, false, none, none,
        none, ""⟩ "fv" 0 "nope" (by decide) (by decide) (by decide) (by decide)
      (by decide) (by decide) (by decide)
    simpa [mset, jsOrS, truthyS] using h

/-- C5 counterexample: in server.js the viewer-left notice sent to the streamer when a
viewer socket closes carries only the viewer identifier; its JSON object has no
viewerCount field, against the claim that it carries the updated viewer count. -/
theorem C5_counterexample :
    (SJ.onClose ⟨[("s", ⟨some "streamer", some "sid", none, 1, false⟩),
        ("v", ⟨some "viewer", some "sid", some "vid1", 0, false⟩)],
        [("sid", ⟨"s", [("vid1", "v")], 0⟩)]⟩ "v"
        ⟨some "viewer", some "sid", some "vid1", 0, false⟩).2
      = [SJ.Ev.sent "s" (.viewerLeft (some "vid1")), SJ.Ev.log "Viewer disconnected"]
    ∧ mget (SJ.fields (SJ.OutMsg.viewerLeft (some "vid1"))) "viewerCount" = none :=
  ⟨by decide, by decide⟩

/-- C5 amended: when a viewer socket closes while its session is registered, the viewer
is removed from the session's viewers map and the session survives in the registry; in
part_000 the streamer (when open) receives exactly one viewer-left carrying the viewer
identifier and the updated viewer count, while in server.js the streamer receives
exactly one viewer-left carrying the viewer identifier only — its JSON carries no
viewerCount field. -/
theorem C5_amended :
    (∀ (st : P0.State) (cid : String) (c : P0.Conn) (sid : String) (e : P0.Stream),
        c.role = some "viewer" → c.streamId = some sid → sid ≠ "" →
        mget st.streams sid = some e → P0.wsOpen st e.streamer = true →
        P0.onClose st cid c
          = ({ st with streams := (mset st.streams sid
                ⟨e.streamer, mdel e.viewers cid, e.createdAt, e.streamerId⟩) },
             [P0.Ev.log "WebSocket closed", P0.Ev.log "Viewer disconnected",
              P0.Ev.log "Remaining viewers in stream",
              P0.Ev.sent e.streamer (.viewerLeft cid (mdel e.viewers cid).length)])
        ∧ mget (P0.onClose st cid c).1.streams sid
          = some ⟨e.streamer, mdel e.viewers cid, e.createdAt, e.streamerId⟩)
    ∧ (∀ (st : SJ.State) (cid : String) (c : SJ.Conn) (sid : String) (e : SJ.Entry)
        (cw : SJ.Conn),
        c.role = some "viewer" → c.streamId = some sid →
        mget st.streamers sid = some e → mget st.conns e.ws = some cw →
        cw.readyState = WSOPEN → cw.sendFails = false →
        SJ.onClose st cid c
          = ({ st with streamers := (mset st.streamers sid
                ⟨e.ws, mdelO e.viewers c.viewerId, e.createdAt⟩) },
             [SJ.Ev.sent e.ws (.viewerLeft c.viewerId), SJ.Ev.log "Viewer disconnected"])
        ∧ mget (SJ.onClose st cid c).1.streamers sid
          = some ⟨e.ws, mdelO e.viewers c.viewerId, e.createdAt⟩
        ∧ mget (SJ.fields (SJ.OutMsg.viewerLeft c.viewerId)) "viewerCount" = none) := by
  constructor
  · intro st cid c sid e h1 h2 h3 h4 h5
    have hred : P0.onClose st cid c
        = ({ st with streams := (mset st.streams sid
              ⟨e.streamer, mdel e.viewers cid, e.createdAt, e.streamerId⟩) },
           [P0.Ev.log "WebSocket closed", P0.Ev.log "Viewer disconnected",
            P0.Ev.log "Remaining viewers in stream",
            P0.Ev.sent e.streamer (.viewerLeft cid (mdel e.viewers cid).length)]) := by
      simp [P0.onClose, h1, h2, truthyS, h3, getS, h4, h5]
    exact ⟨hred, by rw [hred]; exact mget_mset_self sid _ st.streams⟩
  · intro st cid c sid e cw h1 h2 h3 h4 h5 h6
    have hred : SJ.onClose st cid c
        = ({ st with streamers := (mset st.streamers sid
              ⟨e.ws, mdelO e.viewers c.viewerId, e.createdAt⟩) },
           [SJ.Ev.sent e.ws (.viewerLeft c.viewerId), SJ.Ev.log "Viewer disconnected"]) := by
      simp [SJ.onClose, h1, h2, truthyS, h3,
        SJ.send_eq_of_open st e.ws (.viewerLeft c.viewerId) cw h4 h5 h6]
    refine ⟨hred, by rw [hred]; exact mget_mset_self sid _ st.streamers, ?_⟩
    cases h : c.viewerId <;> simp [SJ.fields, SJ.optF, mget]

/-- C5 witness: both parts at a concrete state with one remaining viewer. -/
theorem C5_witness :
    P0.onClose ⟨[("s", ⟨some "streamer", some "sid", 1⟩),
        ("v", ⟨some "viewer", some "sid", 0⟩), ("v2", ⟨some "viewer", some "sid", 1⟩)],
        [("sid", ⟨"s", [("v", "v"), ("v2", "v2")], 0, "s"⟩)]⟩ "v"
        ⟨some "viewer", some "sid", 0⟩
      = (⟨[("s", ⟨some "streamer", some "sid", 1⟩), ("v", ⟨some "viewer", some "sid", 0⟩),
          ("v2", ⟨some "viewer", some "sid", 1⟩)],
          [("sid", ⟨"s", [("v2", "v2")], 0, "s"⟩)]⟩,
         [P0.Ev.log "WebSocket closed", P0.Ev.log "Viewer disconnected",
          P0.Ev.log "Remaining viewers in stream",
          P0.Ev.sent "s" (.viewerLeft "v" 1)])
    ∧ mget (SJ.fields (SJ.OutMsg.viewerLeft (some "w1"))) "viewerCount" = none := by
  constructor
  · have h := (C5_amended.1 ⟨[("s", ⟨some "streamer", some "sid", 1⟩),
      ("v", ⟨some "viewer", some "sid", 0⟩), ("v2", ⟨some "viewer", some "sid", 1⟩)],
      [("sid", ⟨"s", [("v", "v"), ("v2", "v2")], 0, "s"⟩)]⟩ "v"
      ⟨some "viewer", some "sid", 0⟩ "sid" ⟨"s", [("v", "v"), ("v2", "v2")], 0, "s"⟩
      (by decide) (by decide) (by decide) (by decide) (by decide)).1
    simpa [mset, mdel] using h
  · exact (C5_amended.2 ⟨[("s2", ⟨some "streamer", some "sd", none, 1, false⟩),
      ("w", ⟨some "viewer", some "sd", some "w1", 0, false⟩)],
      [("sd", ⟨"s2", [("w1", "w")], 0⟩)]⟩ "w" ⟨some "viewer", some "sd", some "w1", 0, false⟩
      "sd" ⟨"s2", [("w1", "w")], 0⟩ ⟨some "streamer", some "sd", none, 1, false⟩
      (by decide) (by decide) (by decide) (by decide) (by decide) (by decide)).2.2

/-- C6: a part_000 streamer-offer from a streamer whose session is registered leaves the
state unchanged and delivers the embedded offer exactly once to every viewer entry of
the session's viewers map whose socket is currently open, and not at all to a viewer
entry whose socket is not open (viewer entries referencing pairwise distinct sockets,
as the map keyed by socket id guarantees). -/
theorem C6_offer_fanout (st : P0.State) (cid : String) (c : P0.Conn) (msg : P0.Msg)
    (fresh : String) (now : Nat) (url : String) (sid : String) (e : P0.Stream)
    (hty : msg.ty = "streamer-offer") (hrole : c.role = some "streamer")
    (hsid : c.streamId = some sid) (hmg : mget st.streams sid = some e) :
    (P0.onMessage st cid c (some msg) fresh now url).1 = st
    ∧ ∀ vid vc, (vid, vc) ∈ e.viewers → cnt vc (e.viewers.map Prod.snd) = 1 →
        cnt (P0.Ev.sent vc (.streamerOffer msg.offer))
            (P0.onMessage st cid c (some msg) fresh now url).2
          = (if P0.wsOpen st vc then 1 else 0) := by
  have hred : P0.onMessage st cid c (some msg) fresh now url
      = (st, P0.Ev.log "Streamer sending offer" :: P0.offerLoop st msg.offer e.viewers) := by
    simp [P0.onMessage, hty, hsid, mgetO, hmg]
  constructor
  · rw [hred]
  · intro vid vc hvm hvc
    rw [hred]
    have h0 : cnt (P0.Ev.sent vc (.streamerOffer msg.offer))
        (P0.Ev.log "Streamer sending offer" :: P0.offerLoop st msg.offer e.viewers)
        = cnt (P0.Ev.sent vc (.streamerOffer msg.offer))
          (P0.offerLoop st msg.offer e.viewers) := by
      simp [cnt]
    rw [h0]
    have hfl := cnt_flatL_pair
      (fun p : String × String =>
        if P0.wsOpen st p.2 then
          [P0.Ev.sent p.2 (.streamerOffer msg.offer), P0.Ev.log "Routed offer to viewer"]
        else [])
      (P0.Ev.sent vc (.streamerOffer msg.offer)) vid vc
      (by
        intro p hp
        by_cases ho : P0.wsOpen st p.2 <;> simp [ho, cnt, hp])
      e.viewers hvm hvc
    rw [show P0.offerLoop st msg.offer e.viewers = flatL
      (fun p : String × String =>
        if P0.wsOpen st p.2 then
          [P0.Ev.sent p.2 (.streamerOffer msg.offer), P0.Ev.log "Routed offer to viewer"]
        else []) e.viewers from rfl]
    rw [hfl]
    by_cases ho : P0.wsOpen st vc <;> simp [ho, cnt]

/-- C6 witness: the fan-out at a concrete state with one open and one closed viewer. -/
theorem C6_witness :
    (P0.onMessage ⟨[("s", ⟨some "streamer", some "sid", 1⟩),
        ("v1", ⟨some "viewer", some "sid", 1⟩), ("v2", ⟨some "viewer", some "sid", 0⟩)],
        [("sid", ⟨"s", [("v1", "v1"), ("v2", "v2")], 0, "s"⟩)]⟩ "s"
        ⟨some "streamer", some "sid", 1⟩
        (some ⟨"streamer-offer", none, some "SDP", none, none⟩) "f" 0 "u").1
      = ⟨[("s", ⟨some "streamer", some "sid", 1⟩), ("v1", ⟨some "viewer", some "sid", 1⟩),
          ("v2", ⟨some "viewer", some "sid", 0⟩)],
          [("sid", ⟨"s", [("v1", "v1"), ("v2", "v2")], 0, "s"⟩)]⟩
    ∧ cnt (P0.Ev.sent "v1" (.streamerOffer (some "SDP")))
        (P0.onMessage ⟨[("s", ⟨some "streamer", some "sid", 1⟩),
          ("v1", ⟨some "viewer", some "sid", 1⟩), ("v2", ⟨some "viewer", some "sid", 0⟩)],
          [("sid", ⟨"s", [("v1", "v1"), ("v2", "v2")], 0, "s"⟩)]⟩ "s"
          ⟨some "streamer", some "sid", 1⟩
          (some ⟨"streamer-offer", none, some "SDP", none, none⟩) "f" 0 "u").2 = 1
    ∧ cnt (P0.Ev.sent "v2" (.streamerOffer (some "SDP")))
        (P0.onMessage ⟨[("s", ⟨some "streamer", some "sid", 1⟩),
          ("v1", ⟨some "viewer", some "sid", 1⟩), ("v2", ⟨some "viewer", some "sid", 0⟩)],
          [("sid", ⟨"s", [("v1", "v1"), ("v2", "v2")], 0, "s"⟩)]⟩ "s"
          ⟨some "streamer", some "sid", 1⟩
          (some ⟨"streamer-offer", none, some "SDP", none, none⟩) "f" 0 "u").2 = 0 := by
  have h := C6_offer_fanout ⟨[("s", ⟨some "streamer", some "sid", 1⟩),
    ("v1", ⟨some "viewer", some "sid", 1⟩), ("v2", ⟨some "viewer", some "sid", 0⟩)],
    [("sid", ⟨"s", [("v1", "v1"), ("v2", "v2")], 0, "s"⟩)]⟩ "s"
    ⟨some "streamer", some "sid", 1⟩ ⟨"streamer-offer", none, some "SDP", none, none⟩
    "f" 0 "u" "sid" ⟨"s", [("v1", "v1"), ("v2", "v2")], 0, "s"⟩
    (by decide) (by decide) (by decide) (by decide)
  refine ⟨h.1, ?_, ?_⟩
  · have h1 := h.2 "v1" "v1" (by decide) (by decide)
    rw [h1]
    decide
  · have h2 := h.2 "v2" "v2" (by decide) (by decide)
    rw [h2]
    decide

/-- C4 counterexample: when a part_000 streamer socket closes, a viewer that sits in
the session's viewers map but whose own socket is not open receives no stream-ended
message and is not closed by the relay — the whole per-viewer body sits inside the
readyState guard — so not every viewer in the map is notified and closed. -/
theorem C4_counterexample :
    ("v", "v") ∈ [("v", "v")]
    ∧ (P0.onClose ⟨[("s", ⟨some "streamer", some "sid", 1⟩),
        ("v", ⟨some "viewer", some "sid", 0⟩)],
        [("sid", ⟨"s", [("v", "v")], 0, "s"⟩)]⟩ "s" ⟨some "streamer", some "sid", 1⟩).2
      = [P0.Ev.log "WebSocket closed", P0.Ev.log "Streamer disconnected and removed",
         P0.Ev.log "Remaining active streams"] := ⟨by decide, by decide⟩

/-- C4 amended: when a streamer socket closes while its session is registered, the
session id is afterwards absent from the registry in both variants, and every viewer
entry of its viewers map whose socket is open receives exactly one stream-ended and is
closed exactly once; a viewer entry whose socket is not open receives nothing and, in
part_000, is not closed either, whereas server.js still calls close on it (viewer
entries referencing pairwise distinct sockets). -/
theorem C4_amended :
    (∀ (st : P0.State) (cid : String) (c : P0.Conn) (sid : String) (e : P0.Stream),
        c.role = some "streamer" → c.streamId = some sid → sid ≠ "" →
        (st.streams.map Prod.fst).Nodup → mget st.streams sid = some e →
        mget (P0.onClose st cid c).1.streams sid = none
        ∧ ∀ vid vc, (vid, vc) ∈ e.viewers → cnt vc (e.viewers.map Prod.snd) = 1 →
            cnt (P0.Ev.sent vc (.streamEnded "Streamer has disconnected"))
                (P0.onClose st cid c).2 = (if P0.wsOpen st vc then 1 else 0)
            ∧ cnt (P0.Ev.closed vc) (P0.onClose st cid c).2
              = (if P0.wsOpen st vc then 1 else 0))
    ∧ (∀ (st : SJ.State) (cid : String) (c : SJ.Conn) (sid : String) (e : SJ.Entry),
        c.role = some "streamer" → c.streamId = some sid →
        (st.streamers.map Prod.fst).Nodup → mget st.streamers sid = some e →
        mget (SJ.onClose st cid c).1.streamers sid = none
        ∧ ∀ vid vc, (vid, vc) ∈ e.viewers → cnt vc (e.viewers.map Prod.snd) = 1 →
            cnt (SJ.Ev.closed vc) (SJ.onClose st cid c).2 = 1
            ∧ (∀ cw, mget st.conns vc = some cw → cw.readyState = WSOPEN →
                cw.sendFails = false →
                cnt (SJ.Ev.sent vc (.streamEnded (some sid))) (SJ.onClose st cid c).2 = 1)
            ∧ (SJ.wsOpen st vc = false →
                cnt (SJ.Ev.sent vc (.streamEnded (some sid))) (SJ.onClose st cid c).2
                  = 0)) := by
  constructor
  · intro st cid c sid e h1 h2 h3 h4 h5
    have hred : P0.onClose st cid c
        = ({ st with streams := mdel st.streams sid },
           P0.Ev.log "WebSocket closed" :: (P0.closeViewers st e.viewers
             ++ [P0.Ev.log "Streamer disconnected and removed",
                 P0.Ev.log "Remaining active streams"])) := by
      simp [P0.onClose, h1, h2, truthyS, h3, getS, h5]
    refine ⟨by rw [hred]; exact mget_mdel_self sid st.streams h4, ?_⟩
    intro vid vc hvm hvc
    rw [hred]
    constructor
    · have h0 : cnt (P0.Ev.sent vc (.streamEnded "Streamer has disconnected"))
          (P0.Ev.log "WebSocket closed" :: (P0.closeViewers st e.viewers
            ++ [P0.Ev.log "Streamer disconnected and removed",
                P0.Ev.log "Remaining active streams"]))
          = cnt (P0.Ev.sent vc (.streamEnded "Streamer has disconnected"))
            (P0.closeViewers st e.viewers) := by
        simp [cnt, cnt_append]
      rw [h0]
      have hfl := cnt_flatL_pair
        (fun p : String × String =>
          if P0.wsOpen st p.2 then
            [P0.Ev.sent p.2 (.streamEnded "Streamer has disconnected"), P0.Ev.closed p.2]
          else [])
        (P0.Ev.sent vc (.streamEnded "Streamer has disconnected")) vid vc
        (by
          intro p hp
          by_cases ho : P0.wsOpen st p.2 <;> simp [ho, cnt, hp])
        e.viewers hvm hvc
      rw [show P0.closeViewers st e.viewers = flatL
        (fun p : String × String =>
          if P0.wsOpen st p.2 then
            [P0.Ev.sent p.2 (.streamEnded "Streamer has disconnected"), P0.Ev.closed p.2]
          else []) e.viewers from rfl]
      rw [hfl]
      by_cases ho : P0.wsOpen st vc <;> simp [ho, cnt]
    · have h0 : cnt (P0.Ev.closed vc)
          (P0.Ev.log "WebSocket closed" :: (P0.closeViewers st e.viewers
            ++ [P0.Ev.log "Streamer disconnected and removed",
                P0.Ev.log "Remaining active streams"]))
          = cnt (P0.Ev.closed vc) (P0.closeViewers st e.viewers) := by
        simp [cnt, cnt_append]
      rw [h0]
      have hfl := cnt_flatL_pair
        (fun p : String × String =>
          if P0.wsOpen st p.2 then
            [P0.Ev.sent p.2 (.streamEnded "Streamer has disconnected"), P0.Ev.closed p.2]
          else [])
        (P0.Ev.closed vc) vid vc
        (by
          intro p hp
          by_cases ho : P0.wsOpen st p.2 <;> simp [ho, cnt, hp])
        e.viewers hvm hvc
      rw [show P0.closeViewers st e.viewers = flatL
        (fun p : String × String =>
          if P0.wsOpen st p.2 then
            [P0.Ev.sent p.2 (.streamEnded "Streamer has disconnected"), P0.Ev.closed p.2]
          else []) e.viewers from rfl]
      rw [hfl]
      by_cases ho : P0.wsOpen st vc <;> simp [ho, cnt]
  · intro st cid c sid e h1 h2 h4 h5
    have hred : SJ.onClose st cid c
        = ({ st with streamers := mdel st.streamers sid },
           SJ.closeLoop st (some sid) e.viewers
             ++ [SJ.Ev.log "Streamer disconnected and removed"]) := by
      simp [SJ.onClose, h1, h2, truthyS, mgetO, mdelO, h5]
    refine ⟨by rw [hred]; exact mget_mdel_self sid st.streamers h4, ?_⟩
    intro vid vc hvm hvc
    rw [hred]
    refine ⟨?_, ?_, ?_⟩
    · have h0 : cnt (SJ.Ev.closed vc)
          (SJ.closeLoop st (some sid) e.viewers
            ++ [SJ.Ev.log "Streamer disconnected and removed"])
          = cnt (SJ.Ev.closed vc) (SJ.closeLoop st (some sid) e.viewers) := by
        simp [cnt, cnt_append]
      rw [h0]
      have hfl := cnt_flatL_pair
        (fun p : String × String =>
          SJ.send st (some p.2) (.streamEnded (some sid)) ++ [SJ.Ev.closed p.2])
        (SJ.Ev.closed vc) vid vc
        (by
          intro p hp
          simp [cnt_append, SJ.cnt_closed_send, cnt, hp])
        e.viewers hvm hvc
      rw [show SJ.closeLoop st (some sid) e.viewers = flatL
        (fun p : String × String =>
          SJ.send st (some p.2) (.streamEnded (some sid)) ++ [SJ.Ev.closed p.2])
        e.viewers from rfl]
      rw [hfl]
      simp [cnt_append, SJ.cnt_closed_send, cnt]
    · intro cw hw hrdy hok
      have h0 : cnt (SJ.Ev.sent vc (.streamEnded (some sid)))
          (SJ.closeLoop st (some sid) e.viewers
            ++ [SJ.Ev.log "Streamer disconnected and removed"])
          = cnt (SJ.Ev.sent vc (.streamEnded (some sid)))
            (SJ.closeLoop st (some sid) e.viewers) := by
        simp [cnt, cnt_append]
      rw [h0]
      have hfl := cnt_flatL_pair
        (fun p : String × String =>
          SJ.send st (some p.2) (.streamEnded (some sid)) ++ [SJ.Ev.closed p.2])
        (SJ.Ev.sent vc (.streamEnded (some sid))) vid vc
        (by
          intro p hp
          simp [cnt_append, SJ.cnt_sent_send_ne st p.2 vc _ _ hp, cnt])
        e.viewers hvm hvc
      rw [show SJ.closeLoop st (some sid) e.viewers = flatL
        (fun p : String × String =>
          SJ.send st (some p.2) (.streamEnded (some sid)) ++ [SJ.Ev.closed p.2])
        e.viewers from rfl]
      rw [hfl]
      rw [cnt_append, SJ.send_eq_of_open st vc _ cw hw hrdy hok]
      simp [cnt]
    · intro hdead
      have h0 : cnt (SJ.Ev.sent vc (.streamEnded (some sid)))
          (SJ.closeLoop st (some sid) e.viewers
            ++ [SJ.Ev.log "Streamer disconnected and removed"])
          = cnt (SJ.Ev.sent vc (.streamEnded (some sid)))
            (SJ.closeLoop st (some sid) e.viewers) := by
        simp [cnt, cnt_append]
      rw [h0]
      have hfl := cnt_flatL_pair
        (fun p : String × String =>
          SJ.send st (some p.2) (.streamEnded (some sid)) ++ [SJ.Ev.closed p.2])
        (SJ.Ev.sent vc (.streamEnded (some sid))) vid vc
        (by
          intro p hp
          simp [cnt_append, SJ.cnt_sent_send_ne st p.2 vc _ _ hp, cnt])
        e.viewers hvm hvc
      rw [show SJ.closeLoop st (some sid) e.viewers = flatL
        (fun p : String × String =>
          SJ.send st (some p.2) (.streamEnded (some sid)) ++ [SJ.Ev.closed p.2])
        e.viewers from rfl]
      rw [hfl]
      rw [cnt_append, SJ.send_eq_nil_of_dead st vc _ hdead]
      simp [cnt]

/-- C4 witness: both parts at a concrete state with one open and one closed viewer. -/
theorem C4_witness :
    mget (P0.onClose ⟨[("s", ⟨some "streamer", some "sid", 1⟩),
        ("v1", ⟨some "viewer", some "sid", 1⟩), ("v2", ⟨some "viewer", some "sid", 0⟩)],
        [("sid", ⟨"s", [("v1", "v1"), ("v2", "v2")], 0, "s"⟩)]⟩ "s"
        ⟨some "streamer", some "sid", 1⟩).1.streams "sid" = none
    ∧ cnt (P0.Ev.closed "v1") (P0.onClose ⟨[("s", ⟨some "streamer", some "sid", 1⟩),
        ("v1", ⟨some "viewer", some "sid", 1⟩), ("v2", ⟨some "viewer", some "sid", 0⟩)],
        [("sid", ⟨"s", [("v1", "v1"), ("v2", "v2")], 0, "s"⟩)]⟩ "s"
        ⟨some "streamer", some "sid", 1⟩).2 = 1
    ∧ cnt (SJ.Ev.closed "w2") (SJ.onClose ⟨[("t", ⟨some "streamer", some "sd", none, 1,
        false⟩), ("w2", ⟨some "viewer", some "sd", some "k2", 0, false⟩)],
        [("sd", ⟨"t", [("k2", "w2")], 0⟩)]⟩ "t"
        ⟨some "streamer", some "sd", none, 1, false⟩).2 = 1 := by
  have hA := C4_amended.1 ⟨[("s", ⟨some "streamer", some "sid", 1⟩),
    ("v1", ⟨some "viewer", some "sid", 1⟩), ("v2", ⟨some "viewer", some "sid", 0⟩)],
    [("sid", ⟨"s", [("v1", "v1"), ("v2", "v2")], 0, "s"⟩)]⟩ "s"
    ⟨some "streamer", some "sid", 1⟩ "sid" ⟨"s", [("v1", "v1"), ("v2", "v2")], 0, "s"⟩
    (by decide) (by decide) (by decide) (by decide) (by decide)
  have hB := C4_amended.2 ⟨[("t", ⟨some "streamer", some "sd", none, 1, false⟩),
    ("w2", ⟨some "viewer", some "sd", some "k2", 0, false⟩)],
    [("sd", ⟨"t", [("k2", "w2")], 0⟩)]⟩ "t" ⟨some "streamer", some "sd", none, 1, false⟩
    "sd" ⟨"t", [("k2", "w2")], 0⟩ (by decide) (by decide) (by decide) (by decide)
  refine ⟨hA.1, ?_, (hB.2 "k2" "w2" (by decide) (by decide)).1⟩
  have h1 := (hA.2 "v1" "v1" (by decide) (by decide)).2
  rw [h1]
  decide

/-- C2 counterexample: at a concrete state with a registered session whose streamer
socket is not open and one open viewer, an explicit streamer-close event notifies and
closes the viewer, but the sweep emits only a console line: it neither sends
stream-ended in part_000 nor closes the viewer, so the sweep does not perform the same
teardown as the close event. -/
theorem C2_counterexample :
    P0.Ev.closed "v" ∈ (P0.onClose ⟨[("s", ⟨some "streamer", some "sid", 0⟩),
        ("v", ⟨some "viewer", some "sid", 1⟩)],
        [("sid", ⟨"s", [("v", "v")], 0, "s"⟩)]⟩ "s" ⟨some "streamer", some "sid", 0⟩).2
    ∧ (P0.sweep ⟨[("s", ⟨some "streamer", some "sid", 0⟩),
        ("v", ⟨some "viewer", some "sid", 1⟩)],
        [("sid", ⟨"s", [("v", "v")], 0, "s"⟩)]⟩).2
      = [P0.Ev.log "Cleaned up dead streams"]
    ∧ (P0.sweep ⟨[("s", ⟨some "streamer", some "sid", 0⟩),
        ("v", ⟨some "viewer", some "sid", 1⟩)],
        [("sid", ⟨"s", [("v", "v")], 0, "s"⟩)]⟩).1.streams = [] :=
  ⟨by decide, by decide, by decide⟩

/-- C2 amended: at a sweep tick every registered session whose streamer socket is not
open is removed from the registry, as an explicit close would do, but the rest of the
teardown differs from the streamer-close event: the part_000 sweep emits at most one
console line — no viewer is sent stream-ended and none is closed — while the server.js
sweep sends stream-ended to each viewer of the dead session whose socket accepts it
yet closes no viewer socket. -/
theorem C2_amended :
    (∀ (st : P0.State) (sid : String) (e : P0.Stream),
        (st.streams.map Prod.fst).Nodup → mget st.streams sid = some e →
        P0.wsOpen st e.streamer = false →
        mget (P0.sweep st).1.streams sid = none
        ∧ (∀ x ∈ (P0.sweep st).2, x = P0.Ev.log "Cleaned up dead streams"))
    ∧ (∀ (st : SJ.State) (sid : String) (e : SJ.Entry),
        (st.streamers.map Prod.fst).Nodup → mget st.streamers sid = some e →
        SJ.wsOpen st e.ws = false →
        mget (SJ.sweep st).1.streamers sid = none
        ∧ (∀ x, SJ.Ev.closed x ∉ (SJ.sweep st).2)
        ∧ (∀ p : String × String, p ∈ e.viewers → ∀ cw, mget st.conns p.2 = some cw →
            cw.readyState = WSOPEN → cw.sendFails = false →
            SJ.Ev.sent p.2 (.streamEnded (some sid)) ∈ (SJ.sweep st).2)) := by
  constructor
  · intro st sid e h1 h2 h3
    constructor
    · simp only [P0.sweep]
      exact P0.sweepLoop_removes st sid e h3 st.streams h1 h2
    · intro x hx
      simp only [P0.sweep] at hx
      by_cases hc : (P0.sweepLoop st st.streams).2 > 0
      · simp [hc] at hx
        exact hx
      · simp [hc] at hx
  · intro st sid e h1 h2 h3
    refine ⟨?_, ?_, ?_⟩
    · simp only [SJ.sweep]
      exact SJ.sweepLoop_removes_entry st sid e h3 st.streamers h1 h2
    · intro x
      simp only [SJ.sweep]
      exact SJ.sweepLoop_no_closed st x st.streamers
    · intro p hp cw hw hrdy hok
      simp only [SJ.sweep]
      exact SJ.sweepLoop_sent_mem st sid e p cw h3 hp hw hrdy hok st.streamers h2

/-- C2 witness: both parts at concrete states with a dead streamer and one viewer. -/
theorem C2_witness :
    mget (P0.sweep ⟨[("s", ⟨some "streamer", some "sid", 0⟩),
        ("v", ⟨some "viewer", some "sid", 1⟩)],
        [("sid", ⟨"s", [("v", "v")], 0, "s"⟩)]⟩).1.streams "sid" = none
    ∧ mget (SJ.sweep ⟨[("t", ⟨some "streamer", some "sd", none, 0, false⟩),
        ("w", ⟨some "viewer", some "sd", some "k", 1, false⟩)],
        [("sd", ⟨"t", [("k", "w")], 0⟩)]⟩).1.streamers "sd" = none
    ∧ (∀ x, SJ.Ev.closed x ∉ (SJ.sweep ⟨[("t", ⟨some "streamer", some "sd", none, 0,
        false⟩), ("w", ⟨some "viewer", some "sd", some "k", 1, false⟩)],
        [("sd", ⟨"t", [("k", "w")], 0⟩)]⟩).2)
    ∧ SJ.Ev.sent "w" (.streamEnded (some "sd")) ∈ (SJ.sweep ⟨[("t", ⟨some "streamer",
        some "sd", none, 0, false⟩), ("w", ⟨some "viewer", some "sd", some "k", 1,
        false⟩)], [("sd", ⟨"t", [("k", "w")], 0⟩)]⟩).2 := by
  have hA := C2_amended.1 ⟨[("s", ⟨some "streamer", some "sid", 0⟩),
    ("v", ⟨some "viewer", some "sid", 1⟩)], [("sid", ⟨"s", [("v", "v")], 0, "s"⟩)]⟩
    "sid" ⟨"s", [("v", "v")], 0, "s"⟩ (by decide) (by decide) (by decide)
  have hB := C2_amended.2 ⟨[("t", ⟨some "streamer", some "sd", none, 0, false⟩),
    ("w", ⟨some "viewer", some "sd", some "k", 1, false⟩)],
    [("sd", ⟨"t", [("k", "w")], 0⟩)]⟩ "sd" ⟨"t", [("k", "w")], 0⟩
    (by decide) (by decide) (by decide)
  exact ⟨hA.1, hB.1, hB.2.1,
    hB.2.2 ("k", "w") (by decide) ⟨some "viewer", some "sd", some "k", 1, false⟩
      (by decide) (by decide) (by decide)⟩
